import Mathlib

/-!
Verification of the Coffee_Shop_API repository against its specification.

The repository's checked-in source is the frontend environment configuration
(`src/frontend/src/environments/environment.ts`, which also embeds the backend
README). The backend auth module (`auth.py`) and route module (`api.py`) are
described by the README and the specification but are not present in the
source tree, so the authorization pipeline below is modelled from the
specification's component contracts (sections 4.1 to 4.4 of the spec).
-/

deriving instance DecidableEq for Except

namespace CoffeeShop

/-! ## Frontend environment configuration (from environment.ts) -/

/-- The `auth0` sub-object of the frontend environment: identity-provider
domain (written as a bare tenant name), API audience identifier, client id
and callback URL, all plain string constants. -/
structure Auth0Config where
  url : String
  audience : String
  clientId : String
  callbackURL : String
deriving DecidableEq, Repr

/-- The shape of the exported `environment` object in
`src/frontend/src/environments/environment.ts`. -/
structure Environment where
  production : Bool
  apiServerUrl : String
  auth0 : Auth0Config
deriving DecidableEq, Repr

/-- The single static configuration object exported by
`src/frontend/src/environments/environment.ts`, transcribed field by field. -/
def environment : Environment :=
  { production := false
  , apiServerUrl := "http://127.0.0.1:5000"
  , auth0 :=
    { url := "shubhendra"
    , audience := "coffee_shop_api"
    , clientId := "2e0VO8uulrD1o7lENJIL9j71FsN1skZe"
    , callbackURL := "http://127.0.0.1:8100" } }

/-- Reading the environment module: evaluating the module yields the constant
`environment` object; it takes no input and performs no effect, so it is a
function out of `Unit`. -/
def readEnvironment : Unit → Environment :=
  fun _ => environment

/-! ## Authorization core, modelled from the spec -/

/-- Modelled from the spec: the error kinds of section 7 of the specification
for the auth module `auth.py`, which is not under the checked-in source. -/
inductive AuthErrorKind where
  | MissingHeader
  | MalformedHeader
  | KeyNotFound
  | InvalidSignature
  | TokenExpired
  | InvalidClaims
  | PermissionsMissingInClaims
  | Unauthorized
deriving DecidableEq, Repr

/-- Modelled from the spec: the HTTP status the Authorization Guard maps each
error kind to: 401 for token-related kinds, 403 for permission kinds. -/
def httpStatus : AuthErrorKind → Nat
  | .PermissionsMissingInClaims => 403
  | .Unauthorized => 403
  | _ => 401

/-- Modelled from the spec: a decoded Claim Set (section 3): issuer, audience,
expiry, and an optional permissions list (the dynamic claim mapping may lack
the permissions field entirely). -/
structure ClaimSet where
  iss : String
  aud : String
  exp : Nat
  permissions : Option (List String)
deriving DecidableEq, Repr

/-- Modelled from the spec: the information the Token Verifier reads out of a
compact token once parsed: the signing key id from the token header, the
claim set from the payload, and whether the signature verifies under the
matched key. -/
structure Token where
  kid : String
  claims : ClaimSet
  sigValid : Bool
deriving DecidableEq, Repr

/-- Modelled from the spec: the Token Verifier configuration (section 4.2):
the fetched signing key set (as key ids), expected issuer and audience, and
the current time used for the expiry check. -/
structure VerifierConfig where
  keys : List String
  issuer : String
  audience : String
  now : Nat
deriving DecidableEq, Repr

/-- Modelled from the spec: an inbound request as the auth core sees it: the
raw authorization header value, a string or absent. -/
structure Request where
  authHeader : Option String
deriving DecidableEq, Repr

/-- Splits a character list at spaces, keeping empty segments. -/
def splitSp : List Char → List (List Char)
  | [] => [[]]
  | c :: cs =>
    match splitSp cs with
    | [] => [[]]
    | w :: ws => if c = ' ' then [] :: w :: ws else (c :: w) :: ws

/-- The space-separated words of a string, empty segments dropped (the
semantics of Python's `str.split()` on space-separated input). -/
def words (s : String) : List String :=
  ((splitSp s.data).filter (fun w => w ≠ [])).map (fun w => String.mk w)

/-- Modelled from the spec: the Token Extractor `get_token_auth_header` of
section 4.1 (implemented in the missing `auth.py`): fails with
`MissingHeader` when the authorization header is absent, fails with
`MalformedHeader` unless the header is exactly the two words
`Bearer <token>`, and on success returns the token substring only. -/
def get_token_auth_header (header : Option String) : Except AuthErrorKind String :=
  match header with
  | none => .error .MissingHeader
  | some h =>
    match words h with
    | [w, t] => if w = "Bearer" then .ok t else .error .MalformedHeader
    | _ => .error .MalformedHeader

/-- Modelled from the spec: the Token Verifier `verify_decode_jwt` of section
4.2 (implemented in the missing `auth.py`): fails with `KeyNotFound` when no
key in the key set matches the token's key id, then with `TokenExpired`,
`InvalidClaims` (bad audience or issuer) or `InvalidSignature` per the
respective validation failure, and on success returns the decoded Claim
Set. -/
def verify_decode_jwt (cfg : VerifierConfig) (tok : Token) : Except AuthErrorKind ClaimSet :=
  if tok.kid ∈ cfg.keys then
    if tok.claims.exp < cfg.now then
      .error .TokenExpired
    else if tok.claims.aud = cfg.audience ∧ tok.claims.iss = cfg.issuer then
      if tok.sigValid then .ok tok.claims else .error .InvalidSignature
    else
      .error .InvalidClaims
  else
    .error .KeyNotFound

/-- Modelled from the spec: the Permission Checker `check_permissions` of
section 4.3 (implemented in the missing `auth.py`): fails with
`PermissionsMissingInClaims` when the Claim Set has no permissions field at
all, fails with `Unauthorized` when the field exists but does not contain
the required permission, and returns success (no value) otherwise. -/
def check_permissions (p : String) (claims : ClaimSet) : Except AuthErrorKind Unit :=
  match claims.permissions with
  | none => .error .PermissionsMissingInClaims
  | some ps => if p ∈ ps then .ok () else .error .Unauthorized

/-- Modelled from the spec: the permission-check stage as the Guard runs it:
an endpoint that requires no permission passes the stage vacuously, any
other endpoint delegates to `check_permissions`. -/
def checkPermissionOpt : Option String → ClaimSet → Except AuthErrorKind Unit
  | none, _ => .ok ()
  | some p, claims => check_permissions p claims

/-- A terminal state of one Authorization Guard run: ALLOW carrying the
verified Claim Set handed to the endpoint, or DENY carrying the reason and
the HTTP status. -/
inductive GuardResult where
  | allow (claims : ClaimSet)
  | deny (reason : AuthErrorKind) (status : Nat)
deriving DecidableEq, Repr

/-- The three stages of the Guard pipeline, in their fixed order. -/
inductive Stage where
  | extract
  | verify
  | check
deriving DecidableEq, Repr

/-- Modelled from the spec: the Authorization Guard `requires_auth` of
section 4.4 (implemented in the missing `auth.py`): composes Token
Extractor, Token Verifier and Permission Checker in sequence,
short-circuits on the first failure mapping its error kind to an HTTP
status, and on full success exposes the verified Claim Set. The compact
token string is opaque, so its decoding is the parameter `decode`. -/
def requires_auth (cfg : VerifierConfig) (decode : String → Token)
    (permission : Option String) (req : Request) : GuardResult :=
  match get_token_auth_header req.authHeader with
  | .error e => .deny e (httpStatus e)
  | .ok t =>
    match verify_decode_jwt cfg (decode t) with
    | .error e => .deny e (httpStatus e)
    | .ok claims =>
      match checkPermissionOpt permission claims with
      | .error e => .deny e (httpStatus e)
      | .ok _ => .allow claims

/-- Modelled from the spec: the Guard run instrumented with the list of
pipeline stages that actually execute, in execution order; a stage appears
exactly when the Guard reaches it. -/
def guardTrace (cfg : VerifierConfig) (decode : String → Token)
    (permission : Option String) (req : Request) : GuardResult × List Stage :=
  match get_token_auth_header req.authHeader with
  | .error e => (.deny e (httpStatus e), [.extract])
  | .ok t =>
    match verify_decode_jwt cfg (decode t) with
    | .error e => (.deny e (httpStatus e), [.extract, .verify])
    | .ok claims =>
      match checkPermissionOpt permission claims with
      | .error e => (.deny e (httpStatus e), [.extract, .verify, .check])
      | .ok _ => (.allow claims, [.extract, .verify, .check])

/-! ## REST endpoint surface, modelled from the spec -/

/-- HTTP methods used by the five endpoints. -/
inductive Method where
  | get
  | post
  | patch
  | delete
deriving DecidableEq, Repr

/-- An endpoint as the spec lists it: method, route, and the permission it
requires (none for the public endpoint). -/
structure Endpoint where
  method : Method
  path : String
  permission : Option String
deriving DecidableEq, Repr

/-- Modelled from the spec: the five REST endpoints of `api.py` (not under
the checked-in source), each with the named permission it requires before
invoking the Authorization Guard. -/
def endpoints : List Endpoint :=
  [ ⟨.get, "/drinks", none⟩
  , ⟨.get, "/drinks-detail", some "get:drinks-detail"⟩
  , ⟨.post, "/drinks", some "post:drinks"⟩
  , ⟨.patch, "/drinks/<id>", some "patch:drinks"⟩
  , ⟨.delete, "/drinks/<id>", some "delete:drinks"⟩ ]

/-- A JSON response as the spec describes it: a status code, the `success`
field of the body, and the rest of the body (domain payload or error
information), kept abstract as a string. -/
structure ApiResponse where
  status : Nat
  success : Bool
  body : String
deriving DecidableEq, Repr

/-- A machine-readable code for each error kind, used in the error
envelope. -/
def errorCode : AuthErrorKind → String
  | .MissingHeader => "authorization_header_missing"
  | .MalformedHeader => "invalid_header"
  | .KeyNotFound => "invalid_header"
  | .InvalidSignature => "invalid_signature"
  | .TokenExpired => "token_expired"
  | .InvalidClaims => "invalid_claims"
  | .PermissionsMissingInClaims => "invalid_claims"
  | .Unauthorized => "unauthorized"

/-- Modelled from the spec: how one of the five endpoints of `api.py` (not
under the checked-in source) handles a request: it invokes the
Authorization Guard with its required permission; on ALLOW it returns 200
with a body whose `success` field is true together with the domain payload
produced by the handler from the verified Claim Set; on DENY it returns the
error envelope with the failure's status code and `success` false. -/
def runEndpoint (ep : Endpoint) (cfg : VerifierConfig) (decode : String → Token)
    (handler : ClaimSet → String) (req : Request) : ApiResponse :=
  match requires_auth cfg decode ep.permission req with
  | .allow claims => ⟨200, true, handler claims⟩
  | .deny e s => ⟨s, false, errorCode e⟩

/-! ## Helper lemmas -/

/-- Every DENY produced by the Guard carries the HTTP status that
`httpStatus` assigns to its reason. -/
theorem requires_auth_deny_status (cfg : VerifierConfig) (decode : String → Token)
    (perm : Option String) (req : Request) (e : AuthErrorKind) (s : Nat) :
    requires_auth cfg decode perm req = .deny e s → s = httpStatus e := by
  intro h
  rcases hg : get_token_auth_header req.authHeader with e1 | t <;>
    simp only [requires_auth, hg] at h
  · obtain ⟨rfl, rfl⟩ := h
    rfl
  · rcases hv : verify_decode_jwt cfg (decode t) with e2 | claims <;>
      simp only [hv] at h
    · obtain ⟨rfl, rfl⟩ := h
      rfl
    · rcases hc : checkPermissionOpt perm claims with e3 | u <;>
        simp only [hc] at h
      · obtain ⟨rfl, rfl⟩ := h
        rfl
      · exact absurd h (by simp)

/-! ## Claim theorems -/

/-- Claim C1: the frontend environment module exports a single static
configuration object holding the API server URL and an `auth0` sub-object
with exactly the identity-provider domain (`url`), API audience identifier
(`audience`), client id (`clientId`) and callback URL (`callbackURL`), all
plain string constants: the object equals its literal transcription, and an
`Auth0Config` is determined by exactly those four fields. -/
theorem environment_static :
    environment.production = false ∧
    environment.apiServerUrl = "http://127.0.0.1:5000" ∧
    environment.auth0.url = "shubhendra" ∧
    environment.auth0.audience = "coffee_shop_api" ∧
    environment.auth0.clientId = "2e0VO8uulrD1o7lENJIL9j71FsN1skZe" ∧
    environment.auth0.callbackURL = "http://127.0.0.1:8100" ∧
    ∀ a : Auth0Config, a.url = environment.auth0.url →
      a.audience = environment.auth0.audience →
      a.clientId = environment.auth0.clientId →
      a.callbackURL = environment.auth0.callbackURL → a = environment.auth0 := by
  refine ⟨rfl, rfl, rfl, rfl, rfl, rfl, ?_⟩
  intro a h1 h2 h3 h4
  cases a
  simp_all

/-- Witness for C1 at the concrete literal `Auth0Config`. -/
theorem environment_static_witness :
    environment.apiServerUrl = "http://127.0.0.1:5000" ∧
    (⟨"shubhendra", "coffee_shop_api", "2e0VO8uulrD1o7lENJIL9j71FsN1skZe",
      "http://127.0.0.1:8100"⟩ : Auth0Config) = environment.auth0 :=
  ⟨environment_static.2.1,
    environment_static.2.2.2.2.2.2 _ rfl rfl rfl rfl⟩

/-- Claim C3: for every request whose authorization header is absent, the
Token Extractor fails with `MissingHeader` and the Authorization Guard
denies the request with HTTP status 401, whatever the configuration, token
decoding and required permission. -/
theorem missing_header_denied :
    ∀ (cfg : VerifierConfig) (decode : String → Token) (perm : Option String),
      get_token_auth_header none = .error .MissingHeader ∧
      httpStatus .MissingHeader = 401 ∧
      requires_auth cfg decode perm ⟨none⟩ = .deny .MissingHeader 401 :=
  fun _ _ _ => ⟨rfl, rfl, rfl⟩

/-- Claim C5: for every decoded Claim Set and required permission, the
Permission Checker fails with `PermissionsMissingInClaims` (surfaced as
403) exactly when the Claim Set has no permissions field, fails with
`Unauthorized` exactly when the field exists but lacks the required
permission, and returns success exactly otherwise. -/
theorem check_permissions_spec (claims : ClaimSet) (p : String) :
    (check_permissions p claims = .error .PermissionsMissingInClaims ↔
      claims.permissions = none) ∧
    (check_permissions p claims = .error .Unauthorized ↔
      ∃ ps, claims.permissions = some ps ∧ p ∉ ps) ∧
    (check_permissions p claims = .ok () ↔
      ∃ ps, claims.permissions = some ps ∧ p ∈ ps) ∧
    httpStatus .PermissionsMissingInClaims = 403 ∧
    httpStatus .Unauthorized = 403 := by
  rcases hp : claims.permissions with _ | ps
  · simp [check_permissions, hp, httpStatus]
  · by_cases hm : p ∈ ps <;> simp [check_permissions, hp, hm, httpStatus]

/-- Claim C2: the five REST endpoints carry exactly the named permissions the
spec lists — `GET /drinks` none, `GET /drinks-detail` `get:drinks-detail`,
`POST /drinks` `post:drinks`, `PATCH /drinks/<id>` `patch:drinks`,
`DELETE /drinks/<id>` `delete:drinks` — each invokes the Authorization
Guard with its permission, returns a body whose `success` field is true
together with its domain payload when the Guard allows, and otherwise
returns the error envelope with the failure's status code. -/
theorem endpoints_spec :
    endpoints =
      [ ⟨.get, "/drinks", none⟩
      , ⟨.get, "/drinks-detail", some "get:drinks-detail"⟩
      , ⟨.post, "/drinks", some "post:drinks"⟩
      , ⟨.patch, "/drinks/<id>", some "patch:drinks"⟩
      , ⟨.delete, "/drinks/<id>", some "delete:drinks"⟩ ] ∧
    ∀ ep ∈ endpoints, ∀ (cfg : VerifierConfig) (decode : String → Token)
      (handler : ClaimSet → String) (req : Request),
      (∀ claims, requires_auth cfg decode ep.permission req = .allow claims →
        runEndpoint ep cfg decode handler req = ⟨200, true, handler claims⟩) ∧
      (∀ e s, requires_auth cfg decode ep.permission req = .deny e s →
        runEndpoint ep cfg decode handler req = ⟨s, false, errorCode e⟩ ∧
          s = httpStatus e) := by
  refine ⟨rfl, ?_⟩
  intro ep _ cfg decode handler req
  constructor
  · intro claims hall
    simp [runEndpoint, hall]
  · intro e s hden
    exact ⟨by simp [runEndpoint, hden],
      requires_auth_deny_status cfg decode ep.permission req e s hden⟩

/-- Witness for C2: the `GET /drinks-detail` endpoint on a request with no
authorization header returns the 401 error envelope with `success`
false. -/
theorem endpoints_spec_witness :
    runEndpoint ⟨.get, "/drinks-detail", some "get:drinks-detail"⟩
        ⟨[], "", "", 0⟩ (fun _ => ⟨"", ⟨"", "", 0, none⟩, false⟩) (fun _ => "")
        ⟨none⟩ =
      ⟨401, false, "authorization_header_missing"⟩ ∧
    (401 : Nat) = httpStatus .MissingHeader :=
  (endpoints_spec.2 ⟨.get, "/drinks-detail", some "get:drinks-detail"⟩
      (by decide) ⟨[], "", "", 0⟩ (fun _ => ⟨"", ⟨"", "", 0, none⟩, false⟩)
      (fun _ => "") ⟨none⟩).2 .MissingHeader 401 rfl

/-- Claim C4: for every authorization header value not of the two-part
`Bearer <token>` form — wrong first word, missing token part, or a number
of parts other than two — the Token Extractor fails with `MalformedHeader`
and the Guard denies with 401; for every header of that form, the
extractor returns exactly the second part. -/
theorem malformed_header_denied (cfg : VerifierConfig) (decode : String → Token)
    (perm : Option String) (h : String) :
    (∀ t, words h = ["Bearer", t] → get_token_auth_header (some h) = .ok t) ∧
    (∀ w t, words h = [w, t] → w ≠ "Bearer" →
      get_token_auth_header (some h) = .error .MalformedHeader ∧
      requires_auth cfg decode perm ⟨some h⟩ = .deny .MalformedHeader 401) ∧
    ((words h).length ≠ 2 →
      get_token_auth_header (some h) = .error .MalformedHeader ∧
      requires_auth cfg decode perm ⟨some h⟩ = .deny .MalformedHeader 401) := by
  refine ⟨?_, ?_, ?_⟩
  · intro t ht
    simp [get_token_auth_header, ht]
  · intro w t ht hw
    constructor
    · simp [get_token_auth_header, ht, hw]
    · simp [requires_auth, get_token_auth_header, ht, hw, httpStatus]
  · intro hlen
    rcases hl : words h with _ | ⟨w, _ | ⟨t, _ | ⟨u, rest⟩⟩⟩
    · exact ⟨by simp [get_token_auth_header, hl],
        by simp [requires_auth, get_token_auth_header, hl, httpStatus]⟩
    · exact ⟨by simp [get_token_auth_header, hl],
        by simp [requires_auth, get_token_auth_header, hl, httpStatus]⟩
    · exact absurd (by simp [hl]) hlen
    · exact ⟨by simp [get_token_auth_header, hl],
        by simp [requires_auth, get_token_auth_header, hl, httpStatus]⟩

/-- Witness for C4: `Basic abc` (wrong scheme word) is rejected with
`MalformedHeader`/401, and `Bearer abc` yields exactly `abc`. -/
theorem malformed_header_denied_witness :
    (get_token_auth_header (some "Basic abc") = .error .MalformedHeader ∧
      requires_auth ⟨[], "", "", 0⟩ (fun _ => ⟨"", ⟨"", "", 0, none⟩, false⟩)
        none ⟨some "Basic abc"⟩ = .deny .MalformedHeader 401) ∧
    get_token_auth_header (some "Bearer abc") = .ok "abc" :=
  ⟨(malformed_header_denied ⟨[], "", "", 0⟩
      (fun _ => ⟨"", ⟨"", "", 0, none⟩, false⟩) none "Basic abc").2.1
      "Basic" "abc" (by decide) (by decide),
    (malformed_header_denied ⟨[], "", "", 0⟩
      (fun _ => ⟨"", ⟨"", "", 0, none⟩, false⟩) none "Bearer abc").1
      "abc" (by decide)⟩

/-- Claim C6 counterexample: a token whose `exp` (5) lies before the current
time (100) but whose key id is absent from the key set is rejected with
`KeyNotFound`, not `TokenExpired`, so the claim as stated — every token
with `exp` in the past fails with `TokenExpired` — is false. -/
theorem token_expired_cex :
    (5 : Nat) < 100 ∧
    verify_decode_jwt ⟨["k1"], "iss", "aud", 100⟩
        ⟨"k2", ⟨"iss", "aud", 5, none⟩, true⟩ = .error .KeyNotFound ∧
    verify_decode_jwt ⟨["k1"], "iss", "aud", 100⟩
        ⟨"k2", ⟨"iss", "aud", 5, none⟩, true⟩ ≠ .error .TokenExpired := by
  refine ⟨by decide, by decide, by decide⟩

/-- Claim C6 (amended): for every token whose signing key id is present in
the key set and whose `exp` claim lies in the past, the Token Verifier
fails with `TokenExpired` and the Guard denies with 401, regardless of
whether the token's signature is valid. -/
theorem token_expired_denied (cfg : VerifierConfig) (tok : Token)
    (hkey : tok.kid ∈ cfg.keys) (hexp : tok.claims.exp < cfg.now) :
    verify_decode_jwt cfg tok = .error .TokenExpired ∧
    httpStatus .TokenExpired = 401 ∧
    ∀ (decode : String → Token) (perm : Option String) (req : Request)
      (t : String),
      get_token_auth_header req.authHeader = .ok t → decode t = tok →
      requires_auth cfg decode perm req = .deny .TokenExpired 401 := by
  have hver : verify_decode_jwt cfg tok = .error .TokenExpired := by
    unfold verify_decode_jwt
    rw [if_pos hkey, if_pos hexp]
  refine ⟨hver, rfl, ?_⟩
  intro decode perm req t hget hdec
  simp [requires_auth, hget, hdec, hver, httpStatus]

/-- Witness for C6 (amended): an expired token with a known key and an
invalid signature is still rejected as `TokenExpired`/401. -/
theorem token_expired_denied_witness :
    verify_decode_jwt ⟨["k1"], "iss", "aud", 100⟩
        ⟨"k1", ⟨"iss", "aud", 5, none⟩, false⟩ = .error .TokenExpired ∧
    requires_auth ⟨["k1"], "iss", "aud", 100⟩
        (fun _ => ⟨"k1", ⟨"iss", "aud", 5, none⟩, false⟩)
        (some "post:drinks") ⟨some "Bearer x"⟩ = .deny .TokenExpired 401 :=
  ⟨(token_expired_denied ⟨["k1"], "iss", "aud", 100⟩
      ⟨"k1", ⟨"iss", "aud", 5, none⟩, false⟩ (by decide) (by decide)).1,
    (token_expired_denied ⟨["k1"], "iss", "aud", 100⟩
      ⟨"k1", ⟨"iss", "aud", 5, none⟩, false⟩ (by decide) (by decide)).2.2
      (fun _ => ⟨"k1", ⟨"iss", "aud", 5, none⟩, false⟩) (some "post:drinks")
      ⟨some "Bearer x"⟩ "x" (by decide) rfl⟩

/-- Claim C7: every Guard run executes Token Extractor, Token Verifier and
Permission Checker in that fixed order, short-circuits on the first
failure (the trace stops at the failing stage, so later stages never run),
performs no retries (the trace is one of the three increasing stage lists,
each without repetition), and terminates in ALLOW or DENY carrying the
failing stage's error kind with its HTTP status. -/
theorem guard_pipeline (cfg : VerifierConfig) (decode : String → Token)
    (perm : Option String) (req : Request) :
    (guardTrace cfg decode perm req).1 = requires_auth cfg decode perm req ∧
    (guardTrace cfg decode perm req).2 ∈
      ([ [Stage.extract], [Stage.extract, Stage.verify],
         [Stage.extract, Stage.verify, Stage.check] ] : List (List Stage)) ∧
    ((∃ c, requires_auth cfg decode perm req = .allow c) ∨
      ∃ e, requires_auth cfg decode perm req = .deny e (httpStatus e)) ∧
    (∀ e, get_token_auth_header req.authHeader = .error e →
      guardTrace cfg decode perm req = (.deny e (httpStatus e), [.extract])) ∧
    (∀ t e, get_token_auth_header req.authHeader = .ok t →
      verify_decode_jwt cfg (decode t) = .error e →
      guardTrace cfg decode perm req =
        (.deny e (httpStatus e), [.extract, .verify])) := by
  rcases hg : get_token_auth_header req.authHeader with e1 | t
  · refine ⟨by simp [guardTrace, requires_auth, hg], by simp [guardTrace, hg],
      Or.inr ⟨e1, by simp [requires_auth, hg]⟩, ?_, ?_⟩
    · intro e he
      obtain rfl : e1 = e := by injection he
      simp [guardTrace, hg]
    · intro t e ht
      exact absurd ht (by simp)
  · rcases hv : verify_decode_jwt cfg (decode t) with e2 | claims
    · refine ⟨by simp [guardTrace, requires_auth, hg, hv],
        by simp [guardTrace, hg, hv],
        Or.inr ⟨e2, by simp [requires_auth, hg, hv]⟩, ?_, ?_⟩
      · intro e he
        exact absurd he (by simp)
      · intro t' e ht' hv'
        obtain rfl : t = t' := by injection ht'
        rw [hv] at hv'
        obtain rfl : e2 = e := by injection hv'
        simp [guardTrace, hg, hv]
    · rcases hc : checkPermissionOpt perm claims with e3 | u
      · refine ⟨by simp [guardTrace, requires_auth, hg, hv, hc],
          by simp [guardTrace, hg, hv, hc],
          Or.inr ⟨e3, by simp [requires_auth, hg, hv, hc]⟩, ?_, ?_⟩
        · intro e he
          exact absurd he (by simp)
        · intro t' e ht' hv'
          obtain rfl : t = t' := by injection ht'
          rw [hv] at hv'
          exact absurd hv' (by simp)
      · refine ⟨by simp [guardTrace, requires_auth, hg, hv, hc],
          by simp [guardTrace, hg, hv, hc],
          Or.inl ⟨claims, by simp [requires_auth, hg, hv, hc]⟩, ?_, ?_⟩
        · intro e he
          exact absurd he (by simp)
        · intro t' e ht' hv'
          obtain rfl : t = t' := by injection ht'
          rw [hv] at hv'
          exact absurd hv' (by simp)

/-- Witness for C7: on a request with no authorization header the traced
Guard stops after the extraction stage with `MissingHeader`/401. -/
theorem guard_pipeline_witness :
    guardTrace ⟨[], "", "", 0⟩ (fun _ => ⟨"", ⟨"", "", 0, none⟩, false⟩)
        none ⟨none⟩ =
      (.deny .MissingHeader 401, [.extract]) :=
  (guard_pipeline ⟨[], "", "", 0⟩ (fun _ => ⟨"", ⟨"", "", 0, none⟩, false⟩)
      none ⟨none⟩).2.2.2.1 .MissingHeader rfl

/-- Claim C8: for every request carrying a valid token whose permissions
list contains the required permission, the Guard allows the request, and
the Claim Set received by the endpoint handler is exactly the Claim Set
the Token Verifier decoded, unchanged by the Permission Checker and the
Guard. -/
theorem claimset_passthrough (cfg : VerifierConfig) (decode : String → Token)
    (p : String) (req : Request) (t : String) (claims : ClaimSet)
    (ps : List String) (ep : Endpoint)
    (hget : get_token_auth_header req.authHeader = .ok t)
    (hver : verify_decode_jwt cfg (decode t) = .ok claims)
    (hperm : claims.permissions = some ps) (hmem : p ∈ ps)
    (hep : ep.permission = some p) :
    requires_auth cfg decode (some p) req = .allow claims ∧
    ∀ handler : ClaimSet → String,
      runEndpoint ep cfg decode handler req = ⟨200, true, handler claims⟩ := by
  have hall : requires_auth cfg decode (some p) req = .allow claims := by
    simp [requires_auth, hget, hver, checkPermissionOpt, check_permissions,
      hperm, hmem]
  refine ⟨hall, ?_⟩
  intro handler
  simp [runEndpoint, hep, hall]

/-- Witness for C8: a Manager-style token carrying `post:drinks` is allowed
on `POST /drinks` and the handler receives the decoded Claim Set. -/
theorem claimset_passthrough_witness :
    requires_auth ⟨["k1"], "iss", "aud", 10⟩
        (fun _ => ⟨"k1", ⟨"iss", "aud", 99, some ["post:drinks"]⟩, true⟩)
        (some "post:drinks") ⟨some "Bearer x"⟩ =
      .allow ⟨"iss", "aud", 99, some ["post:drinks"]⟩ ∧
    runEndpoint ⟨.post, "/drinks", some "post:drinks"⟩
        ⟨["k1"], "iss", "aud", 10⟩
        (fun _ => ⟨"k1", ⟨"iss", "aud", 99, some ["post:drinks"]⟩, true⟩)
        (fun c => (c.permissions.getD []).foldl (fun a b => a ++ b) "")
        ⟨some "Bearer x"⟩ =
      ⟨200, true, "post:drinks"⟩ :=
  ⟨(claimset_passthrough ⟨["k1"], "iss", "aud", 10⟩
      (fun _ => ⟨"k1", ⟨"iss", "aud", 99, some ["post:drinks"]⟩, true⟩)
      "post:drinks" ⟨some "Bearer x"⟩ "x"
      ⟨"iss", "aud", 99, some ["post:drinks"]⟩ ["post:drinks"]
      ⟨.post, "/drinks", some "post:drinks"⟩
      (by decide) (by decide) rfl (by decide) rfl).1,
    (claimset_passthrough ⟨["k1"], "iss", "aud", 10⟩
      (fun _ => ⟨"k1", ⟨"iss", "aud", 99, some ["post:drinks"]⟩, true⟩)
      "post:drinks" ⟨some "Bearer x"⟩ "x"
      ⟨"iss", "aud", 99, some ["post:drinks"]⟩ ["post:drinks"]
      ⟨.post, "/drinks", some "post:drinks"⟩
      (by decide) (by decide) rfl (by decide) rfl).2
      (fun c => (c.permissions.getD []).foldl (fun a b => a ++ b) "")⟩

/-- Claim C9: the checked-in environment is a local development
configuration: `production` is false, the API server URL and the callback
URL are plain-HTTP loopback addresses, and `auth0.url` is only the bare
domain prefix `shubhendra` (no scheme separator, port separator or dot
anywhere in it). -/
theorem environment_dev_config :
    environment.production = false ∧
    environment.apiServerUrl = "http://127.0.0.1:5000" ∧
    environment.auth0.callbackURL = "http://127.0.0.1:8100" ∧
    environment.apiServerUrl.data.take 16 = "http://127.0.0.1".data ∧
    environment.auth0.callbackURL.data.take 16 = "http://127.0.0.1".data ∧
    environment.auth0.url = "shubhendra" ∧
    ('/' ∉ environment.auth0.url.data ∧ ':' ∉ environment.auth0.url.data ∧
      '.' ∉ environment.auth0.url.data) := by
  decide

/-- Claim C10: evaluating the environment module is pure and deterministic:
reading it is a constant function, any two reads yield structurally
identical values, and every read is the literal configuration object. -/
theorem environment_pure :
    (∀ u v : Unit, readEnvironment u = readEnvironment v) ∧
    (∀ u : Unit, readEnvironment u = environment) :=
  ⟨fun _ _ => rfl, fun _ => rfl⟩

end CoffeeShop
